import Mathlib

/-!
Shallow embedding of the client chat store in
`src/frontend/src/stores/useChatStore.ts` (AXL_MUSIC_NET).

The store is a Zustand store; every mutating operation is a pure function
from the previous state to record updates. We model each operation as a
pure Lean function on a `ChatStore` record.

Modelling conventions:
* JavaScript strings are `String`; `===` / `!==` on strings are `==` / `!=`.
* `Math.max(0, n - 1)` on a JS number is `max 0 (n - 1)` on `Int`
  (`unreadNotificationsCount` is an `Int` so that "never goes negative"
  is a real statement).
* A JS `Map` is modelled as a function `String → Option Int`, updated
  pointwise exactly as `new Map(old).set(k, v)` does.
* A JS `Set` (insertion-ordered, duplicate-free) is modelled as a
  `List String`; `new Set([...old, x])` keeps the list unchanged when `x`
  is already a member and appends it otherwise; `delete` filters it out.
* `new Date(message.createdAt).getTime()` : timestamps are modelled as the
  already-parsed numeric value, so `createdAt : Int` and the conversion is
  the identity; no claim depends on date-string parsing.
* Network calls (`axiosInstance...`, awaited in the source) are modelled by
  passing the settled result of the call as an `Except String α` argument;
  the function then performs exactly the state updates of the `try` /
  `catch` / `finally` blocks.
* `socket.on(...)` registration side effects are modelled by a counter
  `handlerRegistrations`: each run of the `initSocket` body registers the
  whole handler set once more, and dispatching one inbound event applies
  the corresponding handler once per registration.
-/

namespace AXLMusicNet

/-- `User` as read by the store (`@/types`): only `clerkId`, `fullName`,
`imageUrl` are consumed by this file's code. -/
structure User where
  clerkId : String
  fullName : String
  imageUrl : String
  deriving DecidableEq, Repr

/-- `Message` as read by the store: `_id`, `senderId`, `receiverId`,
`content`, `createdAt` (modelled as the parsed numeric timestamp). -/
structure Message where
  _id : String
  senderId : String
  receiverId : String
  content : String
  createdAt : Int
  deriving DecidableEq, Repr

/-- The closed union of notification `type` strings (useChatStore.ts lines
14-19). -/
inductive NotificationType where
  | message
  | follow_request
  | follow_accepted
  | follow_rejected
  | follow_back_request
  deriving DecidableEq, Repr

/-- The `Notification` interface (useChatStore.ts lines 6-20). -/
structure Notification where
  id : String
  senderId : String
  senderName : String
  senderImageUrl : String
  content : String
  timestamp : Int
  isRead : Bool
  type : NotificationType
  deriving DecidableEq, Repr

/-- The mutable fields of the `ChatStore` (useChatStore.ts lines 22-57).
The socket object itself is external; `handlerRegistrations` counts how
many times the `initSocket` body has run `socket.on` for the handler set. -/
structure ChatStore where
  users : List User
  isLoading : Bool
  error : Option String
  isConnected : Bool
  onlineUsers : List String
  userActivities : List (String × String)
  messages : List Message
  selectedUser : Option User
  notifications : List Notification
  unreadNotificationsCount : Int
  lastMessageTime : String → Option Int
  replyTo : Option Message
  handlerRegistrations : Nat

/-- The initial store state (useChatStore.ts lines 71-83). -/
def initialState : ChatStore where
  users := []
  isLoading := false
  error := none
  isConnected := false
  onlineUsers := []
  userActivities := []
  messages := []
  selectedUser := none
  notifications := []
  unreadNotificationsCount := 0
  lastMessageTime := fun _ => none
  replyTo := none
  handlerRegistrations := 0

/-- `markNotificationAsRead` (lines 87-96): sets `isRead := true` on every
notification whose `id` matches, and unconditionally sets the unread count
to `Math.max(0, count - 1)`. -/
def markNotificationAsRead (notificationId : String) (s : ChatStore) : ChatStore :=
  { s with
    notifications := s.notifications.map
      (fun n => if n.id == notificationId then { n with isRead := true } else n),
    unreadNotificationsCount := max 0 (s.unreadNotificationsCount - 1) }

/-- `dismissNotification` (lines 98-108): finds the first notification with
the given id, removes every notification with that id, and decrements the
unread count (floored at 0) only when the found one existed and was unread. -/
def dismissNotification (notificationId : String) (s : ChatStore) : ChatStore :=
  let notification := s.notifications.find? (fun n => n.id == notificationId)
  let wasUnread : Bool :=
    match notification with
    | some n => !n.isRead
    | none => false
  { s with
    notifications := s.notifications.filter (fun n => n.id != notificationId),
    unreadNotificationsCount :=
      if wasUnread then max 0 (s.unreadNotificationsCount - 1)
      else s.unreadNotificationsCount }

/-- `fetchUsers` (lines 110-120): sets `isLoading`/clears `error`, then on
success replaces `users` wholesale, on failure records the error message;
`finally` clears `isLoading`. -/
def fetchUsers (result : Except String (List User)) (s : ChatStore) : ChatStore :=
  let s0 := { s with isLoading := true, error := none }
  let s1 :=
    match result with
    | .ok data => { s0 with users := data }
    | .error e => { s0 with error := some e }
  { s1 with isLoading := false }

/-- `fetchMessages` (lines 217-227): same shape as `fetchUsers` but replaces
`messages`. The peer id only selects the URL, not the state transition. -/
def fetchMessages (result : Except String (List Message)) (s : ChatStore) : ChatStore :=
  let s0 := { s with isLoading := true, error := none }
  let s1 :=
    match result with
    | .ok data => { s0 with messages := data }
    | .error e => { s0 with error := some e }
  { s1 with isLoading := false }

/-- `searchUsers` (lines 229-241): same shape as `fetchUsers`; the query
only selects the URL, not the state transition. -/
def searchUsers (result : Except String (List User)) (s : ChatStore) : ChatStore :=
  let s0 := { s with isLoading := true, error := none }
  let s1 :=
    match result with
    | .ok data => { s0 with users := data }
    | .error e => { s0 with error := some e }
  { s1 with isLoading := false }

/-- The `users_online` handler (lines 130-132): replaces the presence set
wholesale. `new Set(users)` keeps the first occurrence of each element. -/
def usersOnlineHandler (userIds : List String) (s : ChatStore) : ChatStore :=
  { s with onlineUsers := userIds.eraseDups }

/-- The `activities` handler (lines 134-136): replaces the activity map
wholesale. -/
def activitiesHandler (activities : List (String × String)) (s : ChatStore) : ChatStore :=
  { s with userActivities := activities }

/-- The `user_connected` handler (lines 138-142):
`new Set([...state.onlineUsers, userId])` — unchanged when the id is
already present, otherwise appended at the end. -/
def userConnectedHandler (userId : String) (s : ChatStore) : ChatStore :=
  { s with
    onlineUsers :=
      if s.onlineUsers.contains userId then s.onlineUsers
      else s.onlineUsers ++ [userId] }

/-- The `user_disconnected` handler (lines 144-150): copies the set and
deletes the id. -/
def userDisconnectedHandler (userId : String) (s : ChatStore) : ChatStore :=
  { s with onlineUsers := s.onlineUsers.filter (fun u => u != userId) }

/-- The notification built inside the `receive_message` handler
(lines 163-172). -/
def notificationOfMessage (message : Message) (sender : User) : Notification where
  id := message._id
  senderId := message.senderId
  senderName := sender.fullName
  senderImageUrl := sender.imageUrl
  content := message.content
  timestamp := message.createdAt
  isRead := false
  type := NotificationType.message

/-- The `receive_message` handler (lines 152-179): first `set` appends the
message and updates `lastMessageTime[senderId]`; then `get().users` is
searched for the sender by `clerkId`, and if found, a second `set` prepends
the notification and increments the unread count. -/
def receiveMessageHandler (message : Message) (s : ChatStore) : ChatStore :=
  let s1 := { s with
    messages := s.messages ++ [message],
    lastMessageTime := fun k =>
      if k == message.senderId then some message.createdAt
      else s.lastMessageTime k }
  match s1.users.find? (fun u => u.clerkId == message.senderId) with
  | some sender =>
      { s1 with
        notifications := notificationOfMessage message sender :: s1.notifications,
        unreadNotificationsCount := s1.unreadNotificationsCount + 1 }
  | none => s1

/-- The `message_unsent` handler (lines 181-185): filters the message with
the given `_id` out of the ledger. -/
def messageUnsentHandler (messageId : String) (s : ChatStore) : ChatStore :=
  { s with messages := s.messages.filter (fun m => m._id != messageId) }

/-- The `message_sent` handler (lines 187-195): appends the echoed message
and updates `lastMessageTime[receiverId]`. -/
def messageSentHandler (message : Message) (s : ChatStore) : ChatStore :=
  { s with
    messages := s.messages ++ [message],
    lastMessageTime := fun k =>
      if k == message.receiverId then some message.createdAt
      else s.lastMessageTime k }

/-- `initSocket` (lines 122-202): the whole body is guarded by
`if (!get().isConnected)`. When not connected it authenticates/connects the
external socket, emits presence, registers the handler set once more
(modelled by `handlerRegistrations + 1`) and marks the state connected.
When already connected it does nothing. -/
def initSocket (_userId : String) (s : ChatStore) : ChatStore :=
  if s.isConnected then s
  else { s with
    handlerRegistrations := s.handlerRegistrations + 1,
    isConnected := true }

/-- `disconnectSocket` (lines 204-209): closes the channel and clears the
flag when connected; note the source never calls `socket.off`, so
registrations persist. -/
def disconnectSocket (s : ChatStore) : ChatStore :=
  if s.isConnected then { s with isConnected := false } else s

/-- Applies a state transition `n` times. -/
def applyN (f : ChatStore → ChatStore) : Nat → ChatStore → ChatStore
  | 0, s => s
  | n + 1, s => applyN f n (f s)

/-- Dispatching one inbound `user_connected` event runs the registered
handler once per registration (duplicate `socket.on` registrations run the
callback multiple times for one event). -/
def dispatchUserConnected (userId : String) (s : ChatStore) : ChatStore :=
  applyN (userConnectedHandler userId) s.handlerRegistrations s

/-- `unsendMessage` (lines 262-271): on a successful DELETE, filters the
message out of the ledger; on failure the error is only logged
(`console.error`) and no state field changes. -/
def unsendMessage (messageId : String) (result : Except String Unit) (s : ChatStore) : ChatStore :=
  match result with
  | .ok _ => { s with messages := s.messages.filter (fun m => m._id != messageId) }
  | .error _ => s

/-- `sendReplyMessage` (lines 273-288): on success appends the returned
message and clears the reply context; on failure the error is only logged. -/
def sendReplyMessage (result : Except String Message) (s : ChatStore) : ChatStore :=
  match result with
  | .ok newMessage => { s with messages := s.messages ++ [newMessage], replyTo := none }
  | .error _ => s

/-- The number of unread notifications actually present in the list. -/
def unreadInList (s : ChatStore) : Nat :=
  s.notifications.countP fun n => !n.isRead

/-- The derived-state invariant claimed by the spec: the stored unread
counter equals the number of unread notifications in the list. -/
def unreadInvariant (s : ChatStore) : Prop :=
  s.unreadNotificationsCount = (unreadInList s : Int)

/-- The ids of the messages currently in the ledger. -/
def msgIds (s : ChatStore) : List String :=
  s.messages.map Message._id

/-! Concrete data used by witnesses and counterexamples; these realize the
scenario of the spec: directory `[{id : "u2", fullName : "Bo"}]` and event
`receive_message({id : "m1", senderId : "u2", content : "hi", createdAt : T})`
with `T = 5`. -/

/-- The example directory entry `u2` ("Bo"). -/
def exUser : User :=
  { clerkId := "u2", fullName := "Bo", imageUrl := "img" }

/-- The example message `m1` sent by `u2`. -/
def exMsg : Message :=
  { _id := "m1", senderId := "u2", receiverId := "u1", content := "hi", createdAt := 5 }

/-- The store after caching the directory `[exUser]` via `fetchUsers`. -/
def exStore : ChatStore :=
  fetchUsers (Except.ok [exUser]) initialState

/-- The store after additionally receiving `exMsg`: one unread
notification, unread count 1. -/
def exStoreMsg : ChatStore :=
  receiveMessageHandler exMsg exStore

/-! General list helpers shared by several proofs. -/

/-- A count over `q` splits into the part also satisfying `p` and the part
not satisfying `p`. -/
theorem countP_split {α : Type} (p q : α → Bool) (l : List α) :
    l.countP q = l.countP (fun a => q a && p a) + l.countP (fun a => q a && !p a) := by
  induction l with
  | nil => simp
  | cons x xs ih =>
    by_cases hq : q x = true <;> by_cases hp : p x = true <;>
      simp [List.countP_cons, hq, hp, ih] <;> omega

/-- When at most one element of `l` satisfies `p`, any member satisfying
`p` is the one `find?` returns. -/
theorem find?_of_countP_le_one {α : Type} {p : α → Bool} {l : List α} {a : α}
    (h1 : l.countP p ≤ 1) (h2 : a ∈ l) (h3 : p a = true) :
    l.find? p = some a := by
  induction l with
  | nil => cases h2
  | cons x xs ih =>
    rcases List.mem_cons.mp h2 with rfl | hmem
    · exact List.find?_cons_of_pos xs h3
    · by_cases hx : p x = true
      · exfalso
        have hpos : 0 < xs.countP p := List.countP_pos_iff.mpr ⟨a, hmem, h3⟩
        have h1' : xs.countP p + 1 ≤ 1 := by
          simpa [List.countP_cons, hx] using h1
        omega
      · rw [List.find?_cons_of_neg xs hx]
        refine ih ?_ hmem
        simpa [List.countP_cons, hx] using h1

/-- Mapping a function that fixes every member of a list is the identity. -/
theorem map_eq_self_of_mem {α : Type} {f : α → α} {l : List α}
    (h : ∀ a ∈ l, f a = a) : l.map f = l := by
  induction l with
  | nil => rfl
  | cons x xs ih =>
    simp only [List.map_cons, h x (List.mem_cons_self x xs),
      ih fun a ha => h a (List.mem_cons_of_mem x ha)]

/-- Setting `isRead := true` on an already-read notification is the
identity. -/
theorem setRead_eq_self (n : Notification) (h : n.isRead = true) :
    { n with isRead := true } = n := by
  cases n
  simp_all

/-- C2: a `receive_message` event always appends the message to the ledger
and points `lastMessageTime[senderId]` at the message's timestamp; when the
sender is found in the cached directory it additionally prepends exactly
one notification (with id the message's id, `type = message`,
`isRead = false`) and increments the unread count by exactly one; when the
sender is absent, the notification list and the unread count are
unchanged. -/
theorem receive_message_spec (m : Message) (s : ChatStore) :
    (receiveMessageHandler m s).messages = s.messages ++ [m]
    ∧ (receiveMessageHandler m s).lastMessageTime m.senderId = some m.createdAt
    ∧ (∀ sender, s.users.find? (fun u => u.clerkId == m.senderId) = some sender →
        (receiveMessageHandler m s).notifications
            = notificationOfMessage m sender :: s.notifications
        ∧ (notificationOfMessage m sender).id = m._id
        ∧ (notificationOfMessage m sender).type = NotificationType.message
        ∧ (notificationOfMessage m sender).isRead = false
        ∧ (receiveMessageHandler m s).unreadNotificationsCount
            = s.unreadNotificationsCount + 1)
    ∧ (s.users.find? (fun u => u.clerkId == m.senderId) = none →
        (receiveMessageHandler m s).notifications = s.notifications
        ∧ (receiveMessageHandler m s).unreadNotificationsCount
            = s.unreadNotificationsCount) := by
  refine ⟨?_, ?_, ?_, ?_⟩
  · rcases hf : s.users.find? (fun u => u.clerkId == m.senderId) with _ | sender <;>
      simp [receiveMessageHandler, hf]
  · rcases hf : s.users.find? (fun u => u.clerkId == m.senderId) with _ | sender <;>
      simp [receiveMessageHandler, hf]
  · intro sender hf
    simp [receiveMessageHandler, hf, notificationOfMessage]
  · intro hf
    simp [receiveMessageHandler, hf]

/-- C2 witness: the spec scenario (sender present) and the empty-directory
scenario (sender absent), at concrete inputs. -/
theorem receive_message_spec_witness :
    ((receiveMessageHandler exMsg exStore).notifications
        = notificationOfMessage exMsg exUser :: exStore.notifications
      ∧ (receiveMessageHandler exMsg exStore).unreadNotificationsCount
          = exStore.unreadNotificationsCount + 1)
    ∧ ((receiveMessageHandler exMsg initialState).notifications
          = initialState.notifications
      ∧ (receiveMessageHandler exMsg initialState).unreadNotificationsCount
          = initialState.unreadNotificationsCount) := by
  refine ⟨⟨?_, ?_⟩, ?_, ?_⟩
  · exact ((receive_message_spec exMsg exStore).2.2.1 exUser (by decide)).1
  · exact ((receive_message_spec exMsg exStore).2.2.1 exUser (by decide)).2.2.2.2
  · exact ((receive_message_spec exMsg initialState).2.2.2 (by decide)).1
  · exact ((receive_message_spec exMsg initialState).2.2.2 (by decide)).2

/-- C5: `markNotificationAsRead(id)` rewrites the notification list by
setting `isRead := true` exactly on entries whose id matches, leaves the
list unchanged when no entry matches, and sets the unread count to
`max 0 (count - 1)` unconditionally. -/
theorem markNotificationAsRead_spec (i : String) (s : ChatStore) :
    (markNotificationAsRead i s).notifications
        = s.notifications.map
            (fun n => if n.id == i then { n with isRead := true } else n)
    ∧ ((∀ n ∈ s.notifications, n.id ≠ i) →
        (markNotificationAsRead i s).notifications = s.notifications)
    ∧ (markNotificationAsRead i s).unreadNotificationsCount
        = max 0 (s.unreadNotificationsCount - 1) := by
  refine ⟨rfl, ?_, rfl⟩
  intro h
  show s.notifications.map _ = s.notifications
  refine map_eq_self_of_mem fun n hn => ?_
  have hne : (n.id == i) = false := by
    simpa using h n hn
  simp [hne]

/-- C5 witness: marking an id in a store with no notifications leaves the
(empty) list unchanged and floors the count at zero. -/
theorem markNotificationAsRead_spec_witness :
    (markNotificationAsRead "zzz" exStore).notifications = exStore.notifications
    ∧ (markNotificationAsRead "zzz" exStore).unreadNotificationsCount
        = max 0 (exStore.unreadNotificationsCount - 1) :=
  ⟨(markNotificationAsRead_spec "zzz" exStore).2.1 (by decide),
   (markNotificationAsRead_spec "zzz" exStore).2.2⟩

/-- C10: when the unread count is positive and every notification bearing
the target id is already read (in particular when the id is absent),
`markNotificationAsRead` leaves the notification list unchanged but still
decrements the unread count by one: the decrement is unconditional. -/
theorem markNotificationAsRead_decrements_unconditionally (i : String) (s : ChatStore)
    (hpos : 0 < s.unreadNotificationsCount)
    (hread : ∀ n ∈ s.notifications, n.id = i → n.isRead = true) :
    (markNotificationAsRead i s).notifications = s.notifications
    ∧ (markNotificationAsRead i s).unreadNotificationsCount
        = s.unreadNotificationsCount - 1 := by
  constructor
  · show s.notifications.map _ = s.notifications
    refine map_eq_self_of_mem fun n hn => ?_
    by_cases h : (n.id == i) = true
    · simp only [h, if_true]
      exact setRead_eq_self n (hread n hn (by simpa using h))
    · simp [h]
  · show max 0 (s.unreadNotificationsCount - 1) = s.unreadNotificationsCount - 1
    omega

/-- C10 witness: marking an absent id on the store holding one unread
notification keeps the notification unread but drops the count to zero. -/
theorem markNotificationAsRead_decrements_unconditionally_witness :
    (markNotificationAsRead "zzz" exStoreMsg).notifications = exStoreMsg.notifications
    ∧ (markNotificationAsRead "zzz" exStoreMsg).unreadNotificationsCount
        = exStoreMsg.unreadNotificationsCount - 1 :=
  markNotificationAsRead_decrements_unconditionally "zzz" exStoreMsg
    (by decide) (by decide)

/-- C4: assuming at most one notification bears the dismissed id (ids are
unique in the intended data model), `dismissNotification(id)` removes the
matching entry, decrements the unread count by one floored at zero exactly
when that entry existed and was unread, and leaves the count unchanged
when the entry was already read or absent. -/
theorem dismissNotification_spec (i : String) (s : ChatStore)
    (huniq : s.notifications.countP (fun n => n.id == i) ≤ 1) :
    (dismissNotification i s).notifications
        = s.notifications.filter (fun n => n.id != i)
    ∧ ((∃ n ∈ s.notifications, n.id = i ∧ n.isRead = false) →
        (dismissNotification i s).unreadNotificationsCount
            = max 0 (s.unreadNotificationsCount - 1))
    ∧ ((∀ n ∈ s.notifications, n.id = i → n.isRead = true) →
        (dismissNotification i s).unreadNotificationsCount
            = s.unreadNotificationsCount) := by
  refine ⟨rfl, ?_, ?_⟩
  · rintro ⟨n, hn, hid, hunread⟩
    have hfind : s.notifications.find? (fun n => n.id == i) = some n :=
      find?_of_countP_le_one huniq hn (by simp [hid])
    simp [dismissNotification, hfind, hunread]
  · intro hall
    rcases hfind : s.notifications.find? (fun n => n.id == i) with _ | n
    · simp [dismissNotification, hfind]
    · have hp := List.find?_some hfind
      have hmem := List.mem_of_find?_eq_some hfind
      have hr : n.isRead = true := hall n hmem (by simpa using hp)
      simp [dismissNotification, hfind, hr]

/-- C4 witness: dismissing the unread notification "m1" decrements the
count; dismissing an absent id leaves it unchanged. -/
theorem dismissNotification_spec_witness :
    (dismissNotification "m1" exStoreMsg).unreadNotificationsCount
        = max 0 (exStoreMsg.unreadNotificationsCount - 1)
    ∧ (dismissNotification "zzz" exStoreMsg).unreadNotificationsCount
        = exStoreMsg.unreadNotificationsCount :=
  ⟨(dismissNotification_spec "m1" exStoreMsg (by decide)).2.1 (by decide),
   (dismissNotification_spec "zzz" exStoreMsg (by decide)).2.2 (by decide)⟩

/-- C7: a failed user-initiated fetch leaves the cached directory
(`fetchUsers`/`searchUsers`) or the message list (`fetchMessages`)
untouched and surfaces the error string in shared state; a successful one
replaces the corresponding field wholesale. -/
theorem fetch_failure_preserves_cache (e : String) (lu : List User)
    (lm : List Message) (s : ChatStore) :
    ((fetchUsers (Except.error e) s).users = s.users
      ∧ (fetchUsers (Except.error e) s).error = some e
      ∧ (fetchUsers (Except.ok lu) s).users = lu)
    ∧ ((searchUsers (Except.error e) s).users = s.users
      ∧ (searchUsers (Except.error e) s).error = some e
      ∧ (searchUsers (Except.ok lu) s).users = lu)
    ∧ ((fetchMessages (Except.error e) s).messages = s.messages
      ∧ (fetchMessages (Except.error e) s).error = some e
      ∧ (fetchMessages (Except.ok lm) s).messages = lm) :=
  ⟨⟨rfl, rfl, rfl⟩, ⟨rfl, rfl, rfl⟩, ⟨rfl, rfl, rfl⟩⟩

/-- C8: both the `message_unsent` event and a successful `unsendMessage`
filter the message with the given id out of the ledger and leave the whole
state unchanged when no such message exists; a failed `unsendMessage`
changes nothing at all (the error is only logged). -/
theorem unsend_removes_by_id (i : String) (s : ChatStore) :
    (messageUnsentHandler i s).messages = s.messages.filter (fun m => m._id != i)
    ∧ ((∀ m ∈ s.messages, m._id ≠ i) → messageUnsentHandler i s = s)
    ∧ (unsendMessage i (Except.ok ()) s).messages
        = s.messages.filter (fun m => m._id != i)
    ∧ ((∀ m ∈ s.messages, m._id ≠ i) → unsendMessage i (Except.ok ()) s = s)
    ∧ (∀ e, unsendMessage i (Except.error e) s = s) := by
  have hfix : (∀ m ∈ s.messages, m._id ≠ i) →
      s.messages.filter (fun m => m._id != i) = s.messages := fun h =>
    List.filter_eq_self.mpr fun m hm => by simpa [bne_iff_ne] using h m hm
  refine ⟨rfl, ?_, rfl, ?_, fun e => rfl⟩
  · intro h
    show { s with messages := s.messages.filter (fun m => m._id != i) } = s
    rw [hfix h]
  · intro h
    show { s with messages := s.messages.filter (fun m => m._id != i) } = s
    rw [hfix h]

/-- C8 witness: unsending an absent id is a no-op, and a failed unsend of a
present id changes nothing. -/
theorem unsend_removes_by_id_witness :
    messageUnsentHandler "zzz" exStoreMsg = exStoreMsg
    ∧ unsendMessage "zzz" (Except.ok ()) exStoreMsg = exStoreMsg
    ∧ unsendMessage "m1" (Except.error "boom") exStoreMsg = exStoreMsg :=
  ⟨(unsend_removes_by_id "zzz" exStoreMsg).2.1 (by decide),
   (unsend_removes_by_id "zzz" exStoreMsg).2.2.2.1 (by decide),
   (unsend_removes_by_id "m1" exStoreMsg).2.2.2.2 "boom"⟩

/-- C9: `user_connected` adds the id to the presence set and is idempotent;
`user_disconnected` removes it, is idempotent, and is a no-op on an absent
id; neither handler touches any other state field. -/
theorem presence_handlers_spec (i : String) (s : ChatStore) :
    (∀ x, x ∈ (userConnectedHandler i s).onlineUsers ↔ x ∈ s.onlineUsers ∨ x = i)
    ∧ userConnectedHandler i (userConnectedHandler i s) = userConnectedHandler i s
    ∧ (∀ x, x ∈ (userDisconnectedHandler i s).onlineUsers ↔ x ∈ s.onlineUsers ∧ x ≠ i)
    ∧ userDisconnectedHandler i (userDisconnectedHandler i s)
        = userDisconnectedHandler i s
    ∧ (i ∉ s.onlineUsers → userDisconnectedHandler i s = s)
    ∧ userConnectedHandler i s
        = { s with onlineUsers := (userConnectedHandler i s).onlineUsers }
    ∧ userDisconnectedHandler i s
        = { s with onlineUsers := (userDisconnectedHandler i s).onlineUsers } := by
  refine ⟨?_, ?_, ?_, ?_, ?_, rfl, rfl⟩
  · intro x
    simp only [userConnectedHandler]
    split
    · next hmem =>
      have hi : i ∈ s.onlineUsers := by simpa using hmem
      constructor
      · exact Or.inl
      · rintro (h | rfl)
        · exact h
        · exact hi
    · next hmem =>
      simp
  · by_cases hc : i ∈ s.onlineUsers
    · have hcb : s.onlineUsers.contains i = true := by simpa using hc
      have h1 : userConnectedHandler i s = s := by
        unfold userConnectedHandler
        rw [hcb]
        exact rfl
      rw [h1]
      exact h1
    · have hcb : s.onlineUsers.contains i = false := by simpa using hc
      have h1 : userConnectedHandler i s
          = { s with onlineUsers := s.onlineUsers ++ [i] } := by
        unfold userConnectedHandler
        rw [hcb]
        exact rfl
      have hcb2 : ((s.onlineUsers ++ [i]).contains i) = true := by simp
      rw [h1]
      unfold userConnectedHandler
      dsimp only
      rw [hcb2]
      exact rfl
  · intro x
    simp [userDisconnectedHandler, List.mem_filter, bne_iff_ne]
  · show { s with onlineUsers :=
        (s.onlineUsers.filter (fun u => u != i)).filter (fun u => u != i) } = _
    rw [List.filter_eq_self.mpr fun a ha => (List.mem_filter.mp ha).2]
    exact rfl
  · intro hni
    have hfix : s.onlineUsers.filter (fun u => u != i) = s.onlineUsers :=
      List.filter_eq_self.mpr fun a ha => by
        simp only [bne_iff_ne, ne_eq]
        rintro rfl
        exact hni ha
    show { s with onlineUsers := s.onlineUsers.filter (fun u => u != i) } = s
    rw [hfix]

/-- C9 witness: removing an id absent from the empty presence set is a
no-op, and connecting "u2" makes it present. -/
theorem presence_handlers_spec_witness :
    userDisconnectedHandler "u9" initialState = initialState
    ∧ ("u2" ∈ (userConnectedHandler "u2" initialState).onlineUsers
        ↔ "u2" ∈ initialState.onlineUsers ∨ "u2" = "u2") :=
  ⟨(presence_handlers_spec "u9" initialState).2.2.2.2.1 (by decide),
   (presence_handlers_spec "u2" initialState).1 "u2"⟩

/-- C6: starting from a fresh (disconnected, no registrations) store,
calling `initSocket` twice is the same as calling it once — the second
call is a no-op because `isConnected` is already true — so the handler set
is registered exactly once and a subsequent inbound `user_connected` event
mutates the state exactly once, not twice. -/
theorem initSocket_registers_once (u i : String) (s : ChatStore)
    (hconn : s.isConnected = false) (hreg : s.handlerRegistrations = 0) :
    initSocket u (initSocket u s) = initSocket u s
    ∧ (initSocket u (initSocket u s)).handlerRegistrations = 1
    ∧ dispatchUserConnected i (initSocket u (initSocket u s))
        = userConnectedHandler i (initSocket u (initSocket u s)) := by
  have h1 : initSocket u s
      = { s with handlerRegistrations := s.handlerRegistrations + 1,
                 isConnected := true } := by
    simp [initSocket, hconn]
  have h2 : initSocket u (initSocket u s) = initSocket u s := by
    rw [h1]
    simp [initSocket]
  refine ⟨h2, ?_, ?_⟩
  · rw [h2, h1]
    simp [hreg]
  · rw [h2, h1]
    simp [dispatchUserConnected, hreg, applyN]

/-- C6 witness: the double-connect scenario from the fresh initial store,
with a `user_connected("u2")` event dispatched afterwards. -/
theorem initSocket_registers_once_witness :
    initSocket "u1" (initSocket "u1" initialState) = initSocket "u1" initialState
    ∧ (initSocket "u1" (initSocket "u1" initialState)).handlerRegistrations = 1
    ∧ dispatchUserConnected "u2" (initSocket "u1" (initSocket "u1" initialState))
        = userConnectedHandler "u2" (initSocket "u1" (initSocket "u1" initialState)) :=
  initSocket_registers_once "u1" "u2" initialState rfl rfl

/-! Characterizations of the `receive_message` and `dismissNotification`
transitions, used by the invariant proofs below. -/

/-- `receive_message` always appends the message to the ledger. -/
theorem receive_messages_eq (m : Message) (s : ChatStore) :
    (receiveMessageHandler m s).messages = s.messages ++ [m] := by
  rcases hf : s.users.find? (fun u => u.clerkId == m.senderId) with _ | sender <;>
    simp [receiveMessageHandler, hf]

/-- `receive_message` with an unknown sender leaves the unread count
unchanged. -/
theorem receive_count_none {m : Message} {s : ChatStore}
    (hf : s.users.find? (fun u => u.clerkId == m.senderId) = none) :
    (receiveMessageHandler m s).unreadNotificationsCount
      = s.unreadNotificationsCount := by
  simp [receiveMessageHandler, hf]

/-- `receive_message` with a known sender increments the unread count. -/
theorem receive_count_some {m : Message} {s : ChatStore} {sender : User}
    (hf : s.users.find? (fun u => u.clerkId == m.senderId) = some sender) :
    (receiveMessageHandler m s).unreadNotificationsCount
      = s.unreadNotificationsCount + 1 := by
  simp [receiveMessageHandler, hf]

/-- `receive_message` with an unknown sender leaves the notification list
unchanged. -/
theorem receive_notifs_none {m : Message} {s : ChatStore}
    (hf : s.users.find? (fun u => u.clerkId == m.senderId) = none) :
    (receiveMessageHandler m s).notifications = s.notifications := by
  simp [receiveMessageHandler, hf]

/-- `receive_message` with a known sender prepends one notification. -/
theorem receive_notifs_some {m : Message} {s : ChatStore} {sender : User}
    (hf : s.users.find? (fun u => u.clerkId == m.senderId) = some sender) :
    (receiveMessageHandler m s).notifications
      = notificationOfMessage m sender :: s.notifications := by
  simp [receiveMessageHandler, hf]

/-- `dismissNotification` with no matching entry leaves the unread count
unchanged. -/
theorem dismiss_count_none {i : String} {s : ChatStore}
    (hf : s.notifications.find? (fun n => n.id == i) = none) :
    (dismissNotification i s).unreadNotificationsCount
      = s.unreadNotificationsCount := by
  simp [dismissNotification, hf]

/-- `dismissNotification`'s unread count update is decided by the read flag
of the first matching entry. -/
theorem dismiss_count_some {i : String} {s : ChatStore} {n : Notification}
    (hf : s.notifications.find? (fun a => a.id == i) = some n) :
    (dismissNotification i s).unreadNotificationsCount
      = if n.isRead then s.unreadNotificationsCount
        else max 0 (s.unreadNotificationsCount - 1) := by
  by_cases hr : n.isRead = true <;> simp [dismissNotification, hf, hr]

/-- When the id occurs at most once, a member that is both unread and
matching makes the unread-and-matching count exactly one. -/
theorem countP_unread_and_match_eq_one {l : List Notification} {i : String}
    {n : Notification} (hle : l.countP (fun a => a.id == i) ≤ 1) (hmem : n ∈ l)
    (hid : n.id = i) (hunread : n.isRead = false) :
    l.countP (fun a => !a.isRead && (a.id == i)) = 1 := by
  have hub : l.countP (fun a => !a.isRead && (a.id == i))
      ≤ l.countP (fun a => a.id == i) :=
    List.countP_mono_left fun a _ ha => by
      simp only [Bool.and_eq_true] at ha
      exact ha.2
  have hlb : 0 < l.countP (fun a => !a.isRead && (a.id == i)) :=
    List.countP_pos_iff.mpr ⟨n, hmem, by simp [hid, hunread]⟩
  omega

/-- When the id occurs at most once and `find?` returns a read entry, no
member is both unread and matching. -/
theorem countP_unread_and_match_eq_zero {l : List Notification} {i : String}
    {n : Notification} (hle : l.countP (fun a => a.id == i) ≤ 1)
    (hf : l.find? (fun a => a.id == i) = some n) (hread : n.isRead = true) :
    l.countP (fun a => !a.isRead && (a.id == i)) = 0 := by
  rw [List.countP_eq_zero]
  intro a ha hq
  simp only [Bool.and_eq_true] at hq
  obtain ⟨hu, hp⟩ := hq
  have hfa := find?_of_countP_le_one hle ha hp
  rw [hf] at hfa
  have hne : n = a := Option.some.inj hfa
  subst hne
  rw [hread] at hu
  simp at hu

/-- C1 counterexample: in the spec scenario's store (directory cached via
`fetchUsers`, one unread notification received), a `markNotificationAsRead`
on an id absent from the list drops the counter to 0 while one unread
notification remains, so the claimed count/list equality does not survive
every sequence of the three operations. -/
theorem unread_invariant_counterexample :
    unreadInvariant exStoreMsg
    ∧ ¬ unreadInvariant (markNotificationAsRead "zzz" exStoreMsg) := by
  unfold unreadInvariant unreadInList
  exact ⟨by decide, by decide⟩

/-- The three operations quantified over by claim C1, as one inductive so
that arbitrary sequences can be folded over the store. -/
inductive NotifOp where
  | mark (id : String)
  | dismiss (id : String)
  | receive (m : Message)

/-- Applies one `NotifOp` to the store. -/
def applyNotifOp : NotifOp → ChatStore → ChatStore
  | NotifOp.mark i, s => markNotificationAsRead i s
  | NotifOp.dismiss i, s => dismissNotification i s
  | NotifOp.receive m, s => receiveMessageHandler m s

/-- Applies a sequence of `NotifOp`s to the store, left to right. -/
def applyNotifOps (ops : List NotifOp) (s : ChatStore) : ChatStore :=
  ops.foldl (fun t op => applyNotifOp op t) s

/-- Every single `NotifOp` keeps the unread counter non-negative. -/
theorem applyNotifOp_count_nonneg (op : NotifOp) (s : ChatStore)
    (h : 0 ≤ s.unreadNotificationsCount) :
    0 ≤ (applyNotifOp op s).unreadNotificationsCount := by
  cases op with
  | mark i =>
    show 0 ≤ max 0 (s.unreadNotificationsCount - 1)
    omega
  | dismiss i =>
    show 0 ≤ (dismissNotification i s).unreadNotificationsCount
    rcases hf : s.notifications.find? (fun n => n.id == i) with _ | n
    · rw [dismiss_count_none hf]
      exact h
    · rw [dismiss_count_some hf]
      split
      · exact h
      · omega
  | receive m =>
    show 0 ≤ (receiveMessageHandler m s).unreadNotificationsCount
    rcases hf : s.users.find? (fun u => u.clerkId == m.senderId) with _ | sender
    · rw [receive_count_none hf]
      exact h
    · rw [receive_count_some hf]
      omega

/-- Any sequence of `NotifOp`s keeps the unread counter non-negative. -/
theorem applyNotifOps_count_nonneg (ops : List NotifOp) (s : ChatStore)
    (h : 0 ≤ s.unreadNotificationsCount) :
    0 ≤ (applyNotifOps ops s).unreadNotificationsCount := by
  induction ops generalizing s with
  | nil => exact h
  | cons op ops ih => exact ih (applyNotifOp op s) (applyNotifOp_count_nonneg op s h)

/-- C1 (amended): the unread counter never goes negative under any
sequence of the three operations; the count/list equality is preserved by
`receive_message` unconditionally, by `dismissNotification` whenever at
most one notification bears the dismissed id, and by
`markNotificationAsRead` only when additionally the target id names a
currently-unread notification — marking an absent or already-read id
breaks the equality, as the counterexample shows. -/
theorem unread_invariant_amended :
    (∀ ops s, 0 ≤ s.unreadNotificationsCount →
        0 ≤ (applyNotifOps ops s).unreadNotificationsCount)
    ∧ (∀ m s, unreadInvariant s → unreadInvariant (receiveMessageHandler m s))
    ∧ (∀ i s, unreadInvariant s →
        s.notifications.countP (fun n => n.id == i) ≤ 1 →
        unreadInvariant (dismissNotification i s))
    ∧ (∀ i s, unreadInvariant s →
        s.notifications.countP (fun n => n.id == i) ≤ 1 →
        (∃ n ∈ s.notifications, n.id = i ∧ n.isRead = false) →
        unreadInvariant (markNotificationAsRead i s)) := by
  refine ⟨fun ops s h => applyNotifOps_count_nonneg ops s h, ?_, ?_, ?_⟩
  · intro m s h
    unfold unreadInvariant unreadInList at h ⊢
    rcases hf : s.users.find? (fun u => u.clerkId == m.senderId) with _ | sender
    · rw [receive_count_none hf, receive_notifs_none hf]
      exact h
    · rw [receive_count_some hf, receive_notifs_some hf, List.countP_cons]
      simp [notificationOfMessage]
      omega
  · intro i s h hle
    unfold unreadInvariant unreadInList at h ⊢
    have hnotifs : (dismissNotification i s).notifications
        = s.notifications.filter (fun n => n.id != i) := rfl
    rw [hnotifs, List.countP_filter]
    have hsplit : s.notifications.countP (fun a => !a.isRead)
        = s.notifications.countP (fun a => !a.isRead && (a.id == i))
          + s.notifications.countP (fun a => !a.isRead && !(a.id == i)) :=
      countP_split (fun a : Notification => a.id == i)
        (fun a => !a.isRead) s.notifications
    rcases hf : s.notifications.find? (fun n => n.id == i) with _ | n
    · have h0 : s.notifications.countP (fun a => a.id == i) = 0 :=
        List.countP_eq_zero.mpr (by simpa using List.find?_eq_none.mp hf)
      have hub : s.notifications.countP (fun a => !a.isRead && (a.id == i))
          ≤ s.notifications.countP (fun a => a.id == i) :=
        List.countP_mono_left fun a _ ha => by
          simp only [Bool.and_eq_true] at ha
          exact ha.2
      rw [dismiss_count_none hf]
      show s.unreadNotificationsCount
          = (s.notifications.countP (fun a => !a.isRead && !(a.id == i)) : Int)
      omega
    · have hp := List.find?_some hf
      have hpn : n.id = i := by simpa using hp
      have hmem : n ∈ s.notifications := List.mem_of_find?_eq_some hf
      rw [dismiss_count_some hf]
      by_cases hri : n.isRead = true
      · rw [if_pos hri]
        have hz := countP_unread_and_match_eq_zero hle hf hri
        show s.unreadNotificationsCount
            = (s.notifications.countP (fun a => !a.isRead && !(a.id == i)) : Int)
        omega
      · rw [if_neg hri]
        have hrf : n.isRead = false := by simpa using hri
        have h1 := countP_unread_and_match_eq_one hle hmem hpn hrf
        show max 0 (s.unreadNotificationsCount - 1)
            = (s.notifications.countP (fun a => !a.isRead && !(a.id == i)) : Int)
        omega
  · intro i s h hle hex
    rcases hex with ⟨n, hmem, hid, hunread⟩
    unfold unreadInvariant unreadInList at h ⊢
    have hnotifs : (markNotificationAsRead i s).notifications
        = s.notifications.map
            (fun a => if a.id == i then { a with isRead := true } else a) := rfl
    rw [hnotifs, List.countP_map]
    have hcomp : s.notifications.countP
          ((fun a : Notification => !a.isRead)
            ∘ (fun a => if a.id == i then { a with isRead := true } else a))
        = s.notifications.countP (fun a => !a.isRead && !(a.id == i)) :=
      List.countP_congr fun a _ => by
        by_cases hpa : (a.id == i) = true <;> simp [Function.comp, hpa]
    rw [hcomp]
    have hsplit : s.notifications.countP (fun a => !a.isRead)
        = s.notifications.countP (fun a => !a.isRead && (a.id == i))
          + s.notifications.countP (fun a => !a.isRead && !(a.id == i)) :=
      countP_split (fun a : Notification => a.id == i)
        (fun a => !a.isRead) s.notifications
    have h1 := countP_unread_and_match_eq_one hle hmem hid hunread
    show max 0 (s.unreadNotificationsCount - 1)
        = (s.notifications.countP (fun a => !a.isRead && !(a.id == i)) : Int)
    omega

/-- C1 (amended) witness: the non-negativity over a concrete sequence, and
the three preservation conjuncts at concrete stores. -/
theorem unread_invariant_amended_witness :
    0 ≤ (applyNotifOps
          [NotifOp.receive exMsg, NotifOp.mark "m1", NotifOp.dismiss "m1"]
          exStore).unreadNotificationsCount
    ∧ unreadInvariant (receiveMessageHandler exMsg exStore)
    ∧ unreadInvariant (dismissNotification "m1" exStoreMsg)
    ∧ unreadInvariant (markNotificationAsRead "m1" exStoreMsg) := by
  refine ⟨unread_invariant_amended.1 _ exStore (by decide),
    unread_invariant_amended.2.1 exMsg exStore ?_,
    unread_invariant_amended.2.2.1 "m1" exStoreMsg ?_ (by decide),
    unread_invariant_amended.2.2.2 "m1" exStoreMsg ?_ (by decide) (by decide)⟩ <;>
  · unfold unreadInvariant unreadInList
    decide

/-- C3 counterexample: duplicate delivery of the same `receive_message`
event — a sequence of operations the handler accepts, since no
de-duplication is performed — reaches a ledger with two entries that share
the id "m1". -/
theorem msgIds_nodup_counterexample :
    ¬ (msgIds (receiveMessageHandler exMsg (receiveMessageHandler exMsg
        initialState))).Nodup := by
  decide

/-- Appending a message whose id is fresh preserves ledger-id uniqueness. -/
theorem nodup_append_fresh {l : List Message} {m : Message}
    (h : (l.map Message._id).Nodup) (hm : m._id ∉ l.map Message._id) :
    ((l ++ [m]).map Message._id).Nodup := by
  rw [List.map_append, List.nodup_append]
  refine ⟨h, List.nodup_singleton _, ?_⟩
  intro a ha hb
  simp only [List.map_cons, List.map_nil, List.mem_singleton] at hb
  subst hb
  exact hm ha

/-- C3 (amended): ledger-id uniqueness is preserved by the removal
operations and by `fetchMessages` of a duplicate-free list
unconditionally, and by each appending operation (`receive_message`,
`message_sent`, a successful `sendReplyMessage`) exactly when the appended
message's id is not already in the ledger; the handlers themselves never
de-duplicate, so duplicate delivery violates uniqueness (see the
counterexample). -/
theorem msgIds_nodup_amended :
    (∀ m s, (msgIds s).Nodup → m._id ∉ msgIds s →
        (msgIds (receiveMessageHandler m s)).Nodup)
    ∧ (∀ m s, (msgIds s).Nodup → m._id ∉ msgIds s →
        (msgIds (messageSentHandler m s)).Nodup)
    ∧ (∀ m s, (msgIds s).Nodup → m._id ∉ msgIds s →
        (msgIds (sendReplyMessage (Except.ok m) s)).Nodup)
    ∧ (∀ i s, (msgIds s).Nodup → (msgIds (messageUnsentHandler i s)).Nodup)
    ∧ (∀ i r s, (msgIds s).Nodup → (msgIds (unsendMessage i r s)).Nodup)
    ∧ (∀ l s, (l.map Message._id).Nodup →
        (msgIds (fetchMessages (Except.ok l) s)).Nodup)
    ∧ (∀ e s, (msgIds s).Nodup → (msgIds (fetchMessages (Except.error e) s)).Nodup) := by
  refine ⟨?_, ?_, ?_, ?_, ?_, ?_, ?_⟩
  · intro m s h hm
    unfold msgIds at h hm ⊢
    rw [receive_messages_eq]
    exact nodup_append_fresh h hm
  · intro m s h hm
    unfold msgIds at h hm ⊢
    exact nodup_append_fresh h hm
  · intro m s h hm
    unfold msgIds at h hm ⊢
    exact nodup_append_fresh h hm
  · intro i s h
    unfold msgIds at h ⊢
    exact List.Nodup.sublist
      (List.Sublist.map Message._id (List.filter_sublist s.messages)) h
  · intro i r s h
    unfold msgIds at h ⊢
    cases r with
    | ok v =>
      exact List.Nodup.sublist
        (List.Sublist.map Message._id (List.filter_sublist s.messages)) h
    | error e => exact h
  · intro l s h
    exact h
  · intro e s h
    exact h

/-- C3 (amended) witness: fresh-id appends and a removal, at concrete
stores. -/
theorem msgIds_nodup_amended_witness :
    (msgIds (receiveMessageHandler exMsg initialState)).Nodup
    ∧ (msgIds (messageUnsentHandler "m1" exStoreMsg)).Nodup :=
  ⟨msgIds_nodup_amended.1 exMsg initialState (by decide) (by decide),
   msgIds_nodup_amended.2.2.2.1 "m1" exStoreMsg (by decide)⟩

end AXLMusicNet
